import Mathlib

/-!
Verification of the resume-builder backend (src/main.py): the text
linearizer `_format_text_resume`, the three exporters, and the
`ai_suggest` heuristic endpoint, shallowly embedded in Lean.
-/

/-! ## Python string primitives used by the source -/

/-- ASCII whitespace as recognised by Python's `str.strip()`
(space, tab, newline, carriage return, vertical tab, form feed). -/
def pyIsWs (c : Char) : Bool :=
  c == ' ' || c == '\t' || c == '\n' || c == '\r' || c == '\x0b' || c == '\x0c'

/-- Python `s.strip()`: remove leading and trailing whitespace. -/
def pyStrip (s : String) : String :=
  String.mk (((s.toList.dropWhile pyIsWs).reverse.dropWhile pyIsWs).reverse)

/-- Python `a or b` on strings: `a` when non-empty (truthy), else `b`. -/
def pyOrStr (a b : String) : String :=
  if a ≠ "" then a else b

def pySplitAux (sep : Char) : List Char → List Char → List (List Char)
  | [], acc => [acc.reverse]
  | c :: cs, acc =>
    if c = sep then acc.reverse :: pySplitAux sep cs []
    else pySplitAux sep cs (c :: acc)

/-- Python `s.split(sep)` for a one-character separator: splits at every
occurrence, keeping empty pieces (so `"".split(sep) == [""]` and a
trailing separator yields a trailing empty piece). -/
def pySplit (sep : Char) (s : String) : List String :=
  (pySplitAux sep s.toList []).map String.mk

def pyTitleAux : List Char → Bool → List Char
  | [], _ => []
  | c :: cs, prevCased =>
    if c.isAlpha then
      (if prevCased then c.toLower else c.toUpper) :: pyTitleAux cs true
    else
      c :: pyTitleAux cs false

/-- Python `s.title()`: uppercase each letter that follows a non-letter,
lowercase the rest (ASCII letters). -/
def pyTitle (s : String) : String :=
  String.mk (pyTitleAux s.toList false)

/-! ## Record model (src/main.py lines 23-60) -/

structure Skill where
  name : String := ""
  level : String := ""
deriving DecidableEq, Repr

structure ExperienceItem where
  role : String := ""
  company : String := ""
  period : String := ""
  bullets : List String := []
deriving DecidableEq, Repr

structure EducationItem where
  degree : String := ""
  school : String := ""
  period : String := ""
  details : String := ""
deriving DecidableEq, Repr

structure ResumeData where
  name : String := ""
  title : String := ""
  email : String := ""
  phone : String := ""
  location : String := ""
  photo : Option String := none
  summary : String := ""
  experience : List ExperienceItem := []
  education : List EducationItem := []
  skills : List Skill := []
  achievements : List String := []
deriving DecidableEq, Repr

structure ExportPayload where
  data : ResumeData
  template : String := "clean"
  color : String := "slate"
  font : String := "inter"
deriving DecidableEq, Repr

/-! ## The text linearizer `_format_text_resume` (src/main.py lines 99-135) -/

/-- Lines 101-105: header (name, falling back to "Your Name" by Python
truthiness) and the optional " | "-joined subheader. -/
def header_parts (d : ResumeData) : List String :=
  let header := pyOrStr d.name "Your Name"
  let sub := String.intercalate " | "
    (([d.title, d.email, d.phone, d.location]).filter (fun x => x ≠ ""))
  header :: (if sub ≠ "" then [sub] else [])

/-- Lines 106-107: the summary section. -/
def summary_parts (d : ResumeData) : List String :=
  if d.summary ≠ "" then ["\nSummary\n" ++ d.summary] else []

/-- Line 112: `" - ".join([x for x in [e.role, e.company, e.period] if x])`. -/
def experience_line (e : ExperienceItem) : String :=
  String.intercalate " - " (([e.role, e.company, e.period]).filter (fun x => x ≠ ""))

/-- Lines 109-115: the experience section. -/
def experience_parts (d : ResumeData) : List String :=
  if d.experience ≠ [] then
    "\nExperience" :: d.experience.flatMap (fun e =>
      experience_line e ::
        (e.bullets.filter (fun b => pyStrip b ≠ "")).map (fun b => "  • " ++ b))
  else []

/-- Line 120: `" - ".join([x for x in [ed.degree, ed.school, ed.period] if x])`. -/
def education_line (ed : EducationItem) : String :=
  String.intercalate " - " (([ed.degree, ed.school, ed.period]).filter (fun x => x ≠ ""))

/-- Lines 117-123: the education section. -/
def education_parts (d : ResumeData) : List String :=
  if d.education ≠ [] then
    "\nEducation" :: d.education.flatMap (fun ed =>
      education_line ed ::
        (if ed.details ≠ "" then ["  • " ++ ed.details] else []))
  else []

/-- Line 126: skills joined with ", ", keeping only skills with a
non-empty name, rendering `name` or `name (level)`. -/
def skills_line (skills : List Skill) : String :=
  String.intercalate ", "
    ((skills.filter (fun s => s.name ≠ "")).map
      (fun s => s.name ++ (if s.level ≠ "" then " (" ++ s.level ++ ")" else "")))

/-- Lines 125-128: the skills section (heading only when the rendered
line is itself non-empty). -/
def skills_parts (d : ResumeData) : List String :=
  if d.skills ≠ [] then
    (if skills_line d.skills ≠ "" then ["\nSkills\n" ++ skills_line d.skills] else [])
  else []

/-- Lines 130-133: the achievements section; the heading is guarded by the
sequence being non-empty, bullets keep only non-blank entries. -/
def achievements_parts (d : ResumeData) : List String :=
  if d.achievements ≠ [] then
    "\nAchievements" ::
      (d.achievements.filter (fun a => pyStrip a ≠ "")).map (fun a => "  • " ++ a)
  else []

/-- The full `parts` list built by `_format_text_resume`. -/
def format_parts (d : ResumeData) : List String :=
  header_parts d ++ summary_parts d ++ experience_parts d ++ education_parts d
    ++ skills_parts d ++ achievements_parts d

/-- Line 135: `"\n".join(parts).strip() + "\n"`. -/
def format_text_resume (d : ResumeData) : String :=
  pyStrip (String.intercalate "\n" (format_parts d)) ++ "\n"

/-- `/export/txt` (lines 138-143): the UTF-8 bytes of the linearized text.
The cosmetic `template`, `color`, `font` payload fields are never read. -/
def export_txt (p : ExportPayload) : List UInt8 :=
  (format_text_resume p.data).toList.flatMap String.utf8EncodeChar

/-! ## The docx exporter (src/main.py lines 146-199)

`export_docx` walks the record directly and issues python-docx building
calls; the built document is embedded as the ordered list of those calls
(the byte serialization of the docx library is outside the repository). -/

inductive DocxItem
  | setNormalFont (name : String) (sizePt : Nat)
  | heading (text : String) (level : Nat)
  | para (text : String)
  | bulletPara (text : String)
deriving DecidableEq, Repr

/-- Lines 151-193: the sequence of document-building operations performed
by `export_docx`. The duplicated joining expressions of lines 172, 180
and 187 are textually identical to lines 112, 120 and 126 of the
linearizer, so the same helper definitions embed them. The cosmetic
`template`, `color`, `font` payload fields are never read. -/
def export_docx (p : ExportPayload) : List DocxItem :=
  let d := p.data
  let sub := String.intercalate " | "
    (([d.title, d.email, d.phone, d.location]).filter (fun x => x ≠ ""))
  [DocxItem.setNormalFont "Inter" 10,
   DocxItem.heading (pyOrStr d.name "Your Name") 0]
  ++ (if sub ≠ "" then [DocxItem.para sub] else [])
  ++ (if d.summary ≠ "" then [DocxItem.heading "Summary" 1, DocxItem.para d.summary] else [])
  ++ (if d.experience ≠ [] then
        DocxItem.heading "Experience" 1 :: d.experience.flatMap (fun e =>
          DocxItem.para (experience_line e) ::
            (e.bullets.filter (fun b => pyStrip b ≠ "")).map DocxItem.bulletPara)
      else [])
  ++ (if d.education ≠ [] then
        DocxItem.heading "Education" 1 :: d.education.flatMap (fun ed =>
          DocxItem.para (education_line ed) ::
            (if ed.details ≠ "" then [DocxItem.para ed.details] else []))
      else [])
  ++ (if d.skills ≠ [] then
        [DocxItem.heading "Skills" 1, DocxItem.para (skills_line d.skills)]
      else [])
  ++ (if d.achievements ≠ [] then
        DocxItem.heading "Achievements" 1 ::
          (d.achievements.filter (fun a => pyStrip a ≠ "")).map DocxItem.bulletPara
      else [])

/-! ## The PDF exporter (src/main.py lines 202-238)

`export_pdf` re-walks the linearized text with a vertical cursor on a
letter-sized page (612 x 792 points). The embedded output is the ordered
list of canvas operations. The reportlab word-wrap `simpleSplit` is
external library code, so the render loop is parameterised by the wrap
function, with a concrete model below. -/

inductive PdfEvent
  | newPage
  | setFont (font : String × Nat)
  | draw (font : String × Nat) (x : Int) (y : Int) (text : String)
deriving DecidableEq, Repr

/-- The cursor position and currently selected font of the canvas. -/
structure PdfSt where
  y : Int
  font : String × Nat
deriving DecidableEq, Repr

/-- The five heading strings of the headings heuristic (line 224). -/
def headings : List String :=
  ["Summary", "Experience", "Education", "Skills", "Achievements"]

/-- Lines 219-222: before each line, if the cursor fell below 60, finalize
the page, restore the body font and reset the cursor to `height - 40`. -/
def check_page (st : PdfSt) : List PdfEvent × PdfSt :=
  if st.y < 60 then
    ([PdfEvent.newPage, PdfEvent.setFont ("Helvetica", 11)], ⟨792 - 40, ("Helvetica", 11)⟩)
  else ([], st)

/-- Lines 231-233: draw each wrapped sub-line at the current font,
stepping the cursor down by 14 per sub-line, with no page check. -/
def draw_wrapped (st : PdfSt) : List String → List PdfEvent × PdfSt
  | [] => ([], st)
  | w :: ws =>
    let rest := draw_wrapped ⟨st.y - 14, st.font⟩ ws
    (PdfEvent.draw st.font 40 st.y w :: rest.1, rest.2)

/-- Lines 223-233: one loop iteration after the page check — the heading
branch (stripped line among the five headings, bold 12, step 18) or the
word-wrapped body branch. -/
def line_step (wrap : String → List String) (st : PdfSt) (line : String) :
    List PdfEvent × PdfSt :=
  if pyStrip line ∈ headings then
    ([PdfEvent.setFont ("Helvetica-Bold", 12),
      PdfEvent.draw ("Helvetica-Bold", 12) 40 st.y line,
      PdfEvent.setFont ("Helvetica", 11)],
     ⟨st.y - 18, ("Helvetica", 11)⟩)
  else
    draw_wrapped st (wrap line)

/-- Lines 218-233: the render loop over `text.split("\n")`. -/
def render_lines (wrap : String → List String) : PdfSt → List String → List PdfEvent × PdfSt
  | st, [] => ([], st)
  | st, line :: rest =>
    let c := check_page st
    let s := line_step wrap c.2 line
    let r := render_lines wrap s.2 rest
    (c.1 ++ s.1 ++ r.1, r.2)

/-- Lines 208-234: the full canvas-operation trace of `export_pdf`:
initial bold 14 font, the render loop started at `y = 792 - 40`, and the
final `showPage`. The cosmetic `template`, `color`, `font` payload fields
are never read. -/
def export_pdf_events (wrap : String → List String) (p : ExportPayload) : List PdfEvent :=
  let text := format_text_resume p.data
  PdfEvent.setFont ("Helvetica-Bold", 14) ::
    (render_lines wrap ⟨792 - 40, ("Helvetica-Bold", 14)⟩ (pySplit '\n' text)).1
    ++ [PdfEvent.newPage]

/-- Modelled from the spec: reportlab's `simpleSplit` (external library
code) word-wraps a line to fit the printable width at the body font size;
the font-metric width test is approximated by a character budget
`maxChars` (88 characters ≈ 532 points of Helvetica 11), packing words
greedily and producing no sub-line for a blank line. -/
def pack_words (maxChars : Nat) (cur : String) : List String → List String
  | [] => if cur = "" then [] else [cur]
  | w :: ws =>
    if cur = "" then pack_words maxChars w ws
    else if cur.length + 1 + w.length ≤ maxChars then
      pack_words maxChars (cur ++ " " ++ w) ws
    else cur :: pack_words maxChars w ws

/-- Modelled from the spec: greedy word wrap at a character budget,
standing in for reportlab's `simpleSplit` at a given printable width. -/
def simple_split_model (maxChars : Nat) (line : String) : List String :=
  pack_words maxChars "" ((pySplit ' ' line).filter (fun w => w ≠ ""))

/-! ## The suggestion endpoint `ai_suggest` (src/main.py lines 68-96)

`payload.context` is a JSON object of arbitrary values, so the handler
works over dynamic Python values; operations that raise in Python
(`.title()` on a non-string, joining or iterating non-strings) are
embedded as `Except` errors, surfaced by the framework as server errors. -/

inductive PyVal
  | str (s : String)
  | int (n : Int)
  | list (l : List PyVal)
  | none

/-- Python truthiness for the dynamic values that can appear here. -/
def pyTruthy : PyVal → Bool
  | .str s => !s.isEmpty
  | .int n => n != 0
  | .list l => !l.isEmpty
  | .none => false

/-- Python `a or b` on dynamic values. -/
def pyOrVal (a b : PyVal) : PyVal :=
  if pyTruthy a then a else b

/-- Python `ctx.get(k)`: the stored value, or `None` when absent. -/
def ctxGet (ctx : List (String × PyVal)) (k : String) : PyVal :=
  (ctx.lookup k).getD PyVal.none

/-- Python iteration (`for s in skills`): lists yield their elements,
strings yield their characters as one-character strings, anything else
raises `TypeError`. -/
def pyIter : PyVal → Except String (List PyVal)
  | .list l => Except.ok l
  | .str s => Except.ok (s.toList.map (fun c => PyVal.str (String.singleton c)))
  | .int _ => Except.error "TypeError: int object is not iterable"
  | .none => Except.error "TypeError: NoneType object is not iterable"

/-- A join operand must be a string, else `str.join` raises `TypeError`. -/
def pyAsStr : PyVal → Except String String
  | .str s => Except.ok s
  | _ => Except.error "TypeError: sequence item: expected str instance"

def pyJoinStrs : List PyVal → Except String (List String)
  | [] => Except.ok []
  | x :: xs =>
    match pyAsStr x with
    | Except.error m => Except.error m
    | Except.ok s =>
      match pyJoinStrs xs with
      | Except.error m => Except.error m
      | Except.ok ss => Except.ok (s :: ss)

/-- Python `sep.join(items)`: raises on the first non-string item. -/
def pyJoin (sep : String) (l : List PyVal) : Except String String :=
  (pyJoinStrs l).map (String.intercalate sep)

/-- Python `v.title()`: only strings have the attribute. -/
def pyTitleMethod : PyVal → Except String String
  | .str s => Except.ok (pyTitle s)
  | _ => Except.error "AttributeError: object has no attribute title"

/- Python `str(v)` as used by f-string interpolation (never raises);
`repr` escaping inside list renderings is approximated, without escaping
quotes inside nested strings. -/
mutual

def pyRepr : PyVal → String
  | .str s => "\x27" ++ s ++ "\x27"
  | .int n => toString n
  | .list l => "[" ++ pyReprList l ++ "]"
  | .none => "None"

def pyReprList : List PyVal → String
  | [] => ""
  | [x] => pyRepr x
  | x :: xs => pyRepr x ++ ", " ++ pyReprList xs

end

def pyStr : PyVal → String
  | .str s => s
  | .int n => toString n
  | .list l => "[" ++ pyReprList l ++ "]"
  | .none => "None"

structure SuggestPayload where
  context : List (String × PyVal)
  type : String

/-- The observable outcome of `POST /ai/suggest`: a JSON body
`{"text": ...}` or `{"bullets": [...]}`, the explicit 400 response, or an
uncaught exception surfaced as a server error. -/
inductive SuggestResult
  | text (t : String)
  | bullets (bs : List String)
  | clientError (status : Nat) (detail : String)
  | serverError (msg : String)

/-- Lines 68-96: the `ai_suggest` handler. `payload.context or {}` is the
identity on the embedded association list. The `skills_str` join of line
77 is evaluated before the f-string of lines 78-82 calls
`title.title()`, so its errors surface first, as in the source. -/
def ai_suggest (p : SuggestPayload) : SuggestResult :=
  let t := p.type
  let ctx := p.context
  if t = "summary" then
    let title := pyOrVal (ctxGet ctx "title") (PyVal.str "professional")
    let skills := pyOrVal (ctxGet ctx "skills") (PyVal.list [])
    match pyIter skills with
    | Except.error m => SuggestResult.serverError m
    | Except.ok items =>
      match pyJoin ", " (items.filter pyTruthy) with
      | Except.error m => SuggestResult.serverError m
      | Except.ok skills_str =>
        match pyTitleMethod title with
        | Except.error m => SuggestResult.serverError m
        | Except.ok titled =>
          SuggestResult.text (pyStrip
            (titled ++ " with a track record of delivering measurable outcomes. "
              ++ "Skilled in " ++ skills_str
              ++ ". Known for clear communication, ownership, and continuous improvement. "
              ++ "Seeking to leverage expertise to drive impact in a high-performing team."))
  else if t = "bullets" then
    let role := pyOrVal (ctxGet ctx "role") (PyVal.str "Role")
    let company := pyOrVal (ctxGet ctx "company") (PyVal.str "Company")
    SuggestResult.bullets
      ["Drove end-to-end initiatives as " ++ pyStr role ++ " at " ++ pyStr company
         ++ ", improving key KPIs by 15%+.",
       "Collaborated cross-functionally to ship features on time while reducing defects.",
       "Automated repetitive workflows to save team 4–6 hrs/week and increase consistency.",
       "Translated business goals into actionable plans with clear milestones and metrics."]
  else
    SuggestResult.clientError 400 "Unsupported type"

/-! ## Observation helpers and concrete inputs -/

/-- Is this canvas operation a draw below the given baseline? -/
def draw_below (limit : Int) : PdfEvent → Bool
  | .draw _ _ y _ => y < limit
  | _ => false

/-- Is this canvas operation a heading draw (bold 12) of the given text? -/
def is_bold12_draw_of (s : String) : PdfEvent → Bool
  | .draw f _ _ t => f == ("Helvetica-Bold", 12) && t == s
  | _ => false

/-- A resume whose achievements sequence is non-empty but all blank. -/
def blank_achievements_resume : ResumeData := { achievements := [" "] }

/-- A resume whose name is whitespace-only (non-empty but blank). -/
def blank_name_resume : ResumeData := { name := " ", title := "Engineer" }

def ann_lee_resume : ResumeData :=
  { name := "Ann Lee", title := "Engineer", skills := [{ name := "Go" }] }

def ann_lee_payload : ExportPayload := { data := ann_lee_resume }

/-- A resume with one fully-empty experience entry followed by a skills
section, so the empty entry line sits in the interior of the output. -/
def empty_entry_resume : ResumeData :=
  { experience := [{}], skills := [{ name := "Go" }] }

def two_empty_entries_resume : ResumeData :=
  { experience := [{}, {}], skills := [{ name := "Go" }] }

/-- A resume whose summary holds 47 one-character lines followed by one
long line: the long line wraps into two sub-lines (121 characters at the
88-character budget), the second of which lands below the 60-unit margin. -/
def long_wrap_resume : ResumeData :=
  { summary :=
      String.intercalate "\n" (List.replicate 47 "a") ++ "\n"
        ++ String.mk (List.replicate 60 'x') ++ " " ++ String.mk (List.replicate 60 'y') }

def long_wrap_payload : ExportPayload := { data := long_wrap_resume }

/-- A resume whose summary contains an embedded line " Skills " —
surrounded by whitespace, so not equal to any heading string — followed
by an achievements section keeping it in the interior of the text. -/
def stripped_heading_resume : ResumeData :=
  { summary := "x\n Skills ", achievements := ["A"] }

def stripped_heading_payload : ExportPayload := { data := stripped_heading_resume }

def hello_summary_payload : ExportPayload := { data := { summary := "hello" } }

/-- `ann_lee_payload` with all three cosmetic fields changed. -/
def ann_lee_payload_restyled : ExportPayload :=
  { data := ann_lee_resume, template := "modern", color := "crimson", font := "times" }

/-- A well-typed suggestion context: string title, list-of-strings skills. -/
def engineer_ctx : List (String × PyVal) :=
  [("title", PyVal.str "engineer"), ("skills", PyVal.list [PyVal.str "Go", PyVal.str "SQL"])]

/-! ## Theorems -/

theorem intercalate_single (sep a : String) : String.intercalate sep [a] = a := rfl

theorem intercalate_pair (sep a b : String) :
    String.intercalate sep [a, b] = a ++ sep ++ b := rfl

/-- C3: the all-empty resume record linearizes to exactly the header
fallback "Your Name" followed by a single trailing newline. -/
theorem c3_all_empty_output : format_text_resume {} = "Your Name\n" := by decide

/-- C9: exporting the Ann Lee record as plain text yields exactly the
UTF-8 bytes of "Ann Lee\nEngineer\n\nSkills\nGo\n", with no Experience,
Education, or Achievements sections. -/
theorem c9_ann_lee_txt_bytes :
    export_txt ann_lee_payload
      = "Ann Lee\nEngineer\n\nSkills\nGo\n".toList.flatMap String.utf8EncodeChar := by
  decide

/-- C1 is false on the code: a resume whose achievements sequence is
non-empty but all blank still gets an "Achievements" heading line in the
linearized output. -/
theorem c1_counterexample :
    blank_achievements_resume.achievements ≠ [] ∧
    blank_achievements_resume.achievements.all (fun a => pyStrip a == "") = true ∧
    "Achievements" ∈ pySplit '\n' (format_text_resume blank_achievements_resume) ∧
    format_text_resume blank_achievements_resume = "Your Name\n\nAchievements\n" :=
  ⟨by decide, by decide, by decide, by decide⟩

/-- C1 (amended): the "Achievements" heading is emitted whenever the
achievements sequence is non-empty — even when every entry is blank;
only the bullet lines are restricted to non-blank achievements. -/
theorem c1_amended_heading_emitted (d : ResumeData) (h : d.achievements ≠ []) :
    "\nAchievements" ∈ format_parts d := by
  simp [format_parts, achievements_parts, h]

theorem c1_witness : "\nAchievements" ∈ format_parts blank_achievements_resume :=
  c1_amended_heading_emitted blank_achievements_resume (by decide)

/-- C2 is false on the code: a whitespace-only (blank but non-empty) name
is truthy in Python, so the fallback is not applied; the blank header is
then removed by the final whole-text trim, and the first output line here
is "Engineer", not "Your Name". -/
theorem c2_counterexample :
    blank_name_resume.name ≠ "" ∧ pyStrip blank_name_resume.name = "" ∧
    format_text_resume blank_name_resume = "Engineer\n" :=
  ⟨by decide, by decide, by decide⟩

/-- C2 (amended): the "Your Name" fallback is used exactly when the name
is the empty string; any non-empty name — including a whitespace-only
one — is used verbatim as the header part. -/
theorem c2_amended_header_fallback (d : ResumeData) :
    (d.name = "" → (format_parts d).head? = some "Your Name") ∧
    (d.name ≠ "" → (format_parts d).head? = some d.name) := by
  constructor <;> intro h <;> simp [format_parts, header_parts, pyOrStr, h]

theorem c2_witness : (format_parts {}).head? = some "Your Name" :=
  (c2_amended_header_fallback {}).1 rfl

/-- C10: a fully-empty experience (or education) entry still produces a
line — the empty join — under its section heading, so the output can
contain empty interior lines, one per such entry. -/
theorem c10_empty_entries_emit_lines :
    (∀ (d : ResumeData) (e : ExperienceItem), e ∈ d.experience →
        e.role = "" → e.company = "" → e.period = "" →
        experience_line e = "" ∧ "" ∈ experience_parts d) ∧
    (∀ (d : ResumeData) (ed : EducationItem), ed ∈ d.education →
        ed.degree = "" → ed.school = "" → ed.period = "" →
        education_line ed = "" ∧ "" ∈ education_parts d) ∧
    format_text_resume empty_entry_resume = "Your Name\n\nExperience\n\n\nSkills\nGo\n" ∧
    format_text_resume two_empty_entries_resume
      = "Your Name\n\nExperience\n\n\n\nSkills\nGo\n" := by
  refine ⟨?_, ?_, by decide, by decide⟩
  · intro d e he hr hc hp
    have hline : experience_line e = "" := by
      simp only [experience_line, hr, hc, hp]
      rfl
    have hne : d.experience ≠ [] := List.ne_nil_of_mem he
    refine ⟨hline, ?_⟩
    simp only [experience_parts, if_pos hne, List.mem_cons, List.mem_flatMap]
    exact Or.inr ⟨e, he, by simp [hline]⟩
  · intro d ed he hd hs hp
    have hline : education_line ed = "" := by
      simp only [education_line, hd, hs, hp]
      rfl
    have hne : d.education ≠ [] := List.ne_nil_of_mem he
    refine ⟨hline, ?_⟩
    simp only [education_parts, if_pos hne, List.mem_cons, List.mem_flatMap]
    exact Or.inr ⟨ed, he, by simp [hline]⟩

theorem c10_witness :
    experience_line {} = "" ∧ "" ∈ experience_parts empty_entry_resume :=
  c10_empty_entries_emit_lines.1 empty_entry_resume {} (by decide) rfl rfl rfl

/-- C8: in the skills line, a skill with empty name is dropped entirely
(even with a level), a named skill without level renders as its name, a
named skill with level renders as "name (level)", and rendered skills
are joined with ", ". -/
theorem c8_skills_rendering :
    (∀ (pre suf : List Skill) (lvl : String),
        skills_line (pre ++ { name := "", level := lvl } :: suf) = skills_line (pre ++ suf)) ∧
    (∀ n : String, n ≠ "" → skills_line [{ name := n }] = n) ∧
    (∀ n l : String, n ≠ "" → l ≠ "" →
        skills_line [{ name := n, level := l }] = n ++ " (" ++ l ++ ")") ∧
    (∀ s1 s2 : Skill, s1.name ≠ "" → s2.name ≠ "" →
        skills_line [s1, s2] = skills_line [s1] ++ ", " ++ skills_line [s2]) := by
  refine ⟨?_, ?_, ?_, ?_⟩
  · intro pre suf lvl
    simp [skills_line, List.filter_append]
  · intro n hn
    simp [skills_line, hn, intercalate_single]
  · intro n l hn hl
    simp [skills_line, hn, hl, intercalate_single, String.append_assoc]
  · intro s1 s2 h1 h2
    simp [skills_line, h1, h2, intercalate_single, intercalate_pair, String.append_assoc]

theorem c8_witness :
    skills_line [{ name := "", level := "expert" }, { name := "Go" }] = skills_line [{ name := "Go" }] ∧
    skills_line [{ name := "Go" }] = "Go" ∧
    skills_line [{ name := "Go", level := "expert" }] = "Go (expert)" ∧
    skills_line [{ name := "Go" }, { name := "SQL" }]
      = skills_line [{ name := "Go" }] ++ ", " ++ skills_line [{ name := "SQL" }] :=
  ⟨c8_skills_rendering.1 [] [{ name := "Go" }] "expert",
   c8_skills_rendering.2.1 "Go" (by decide),
   c8_skills_rendering.2.2.1 "Go" "expert" (by decide) (by decide),
   c8_skills_rendering.2.2.2 { name := "Go" } { name := "SQL" } (by decide) (by decide)⟩

/-- C7: the cosmetic template, color and font payload fields never affect
any exporter's output: payloads with equal data produce identical text
bytes, identical docx build traces, and identical PDF canvas traces. -/
theorem c7_cosmetics_no_effect (p q : ExportPayload) (h : p.data = q.data) :
    export_txt p = export_txt q ∧ export_docx p = export_docx q ∧
      ∀ wrap : String → List String, export_pdf_events wrap p = export_pdf_events wrap q := by
  unfold export_txt export_docx export_pdf_events
  rw [h]
  exact ⟨rfl, rfl, fun _ => rfl⟩

theorem c7_witness :
    export_txt ann_lee_payload_restyled = export_txt ann_lee_payload ∧
    export_docx ann_lee_payload_restyled = export_docx ann_lee_payload ∧
    export_pdf_events (simple_split_model 88) ann_lee_payload_restyled
      = export_pdf_events (simple_split_model 88) ann_lee_payload :=
  ⟨(c7_cosmetics_no_effect ann_lee_payload_restyled ann_lee_payload rfl).1,
   (c7_cosmetics_no_effect ann_lee_payload_restyled ann_lee_payload rfl).2.1,
   (c7_cosmetics_no_effect ann_lee_payload_restyled ann_lee_payload rfl).2.2 (simple_split_model 88)⟩

theorem draw_wrapped_snd_font (ws : List String) :
    ∀ st : PdfSt, ((draw_wrapped st ws).2).font = st.font := by
  induction ws with
  | nil => intro st; rfl
  | cons w ws ih =>
    intro st
    simp only [draw_wrapped]
    rw [ih]

theorem draw_wrapped_mem (ws : List String) :
    ∀ st : PdfSt, ∀ e ∈ (draw_wrapped st ws).1,
      ∃ y s, e = PdfEvent.draw st.font 40 y s := by
  induction ws with
  | nil => intro st e he; simp [draw_wrapped] at he
  | cons w ws ih =>
    intro st e he
    simp only [draw_wrapped, List.mem_cons] at he
    rcases he with rfl | he
    · exact ⟨st.y, w, rfl⟩
    · obtain ⟨y, s, rfl⟩ := ih ⟨st.y - 14, st.font⟩ e he
      exact ⟨y, s, rfl⟩

theorem check_page_snd_y (st : PdfSt) : 60 ≤ ((check_page st).2).y := by
  unfold check_page
  split
  · decide
  · next h =>
    show 60 ≤ st.y
    omega

theorem check_page_snd_font (st : PdfSt) (h : st.font ≠ ("Helvetica-Bold", 12)) :
    ((check_page st).2).font ≠ ("Helvetica-Bold", 12) := by
  unfold check_page
  split
  · decide
  · exact h

theorem check_page_fst_no_draw (st : PdfSt) (f : String × Nat) (x y : Int) (s : String) :
    PdfEvent.draw f x y s ∉ (check_page st).1 := by
  unfold check_page
  split <;> simp

theorem render_lines_bold_draw (wrap : String → List String) (lines : List String) :
    ∀ st : PdfSt, st.font ≠ ("Helvetica-Bold", 12) →
      (∀ x y s, PdfEvent.draw ("Helvetica-Bold", 12) x y s ∈ (render_lines wrap st lines).1 →
        60 ≤ y) ∧
      ((render_lines wrap st lines).2).font ≠ ("Helvetica-Bold", 12) := by
  induction lines with
  | nil =>
    intro st h
    refine ⟨?_, ?_⟩
    · intro x y s hm
      simp [render_lines] at hm
    · simpa [render_lines] using h
  | cons line rest ih =>
    intro st h
    have h1 : ((check_page st).2).font ≠ ("Helvetica-Bold", 12) := check_page_snd_font st h
    have h2 : ((line_step wrap (check_page st).2 line).2).font ≠ ("Helvetica-Bold", 12) := by
      unfold line_step
      split
      · exact (by decide : (("Helvetica", 11) : String × Nat) ≠ ("Helvetica-Bold", 12))
      · rw [draw_wrapped_snd_font]
        exact h1
    obtain ⟨ihMem, ihFont⟩ := ih ((line_step wrap (check_page st).2 line).2) h2
    refine ⟨?_, ?_⟩
    · intro x y s hm
      simp only [render_lines, List.mem_append] at hm
      rcases hm with (hm | hm) | hm
      · exact absurd hm (check_page_fst_no_draw st _ x y s)
      · revert hm
        unfold line_step
        split
        · intro hm
          simp only [List.mem_cons, List.not_mem_nil, or_false] at hm
          rcases hm with hm | hm | hm
          · simp at hm
          · simp only [PdfEvent.draw.injEq] at hm
            rw [hm.2.2.1]
            exact check_page_snd_y st
          · simp at hm
        · intro hm
          obtain ⟨y2, s2, heq⟩ := draw_wrapped_mem (wrap line) (check_page st).2 _ hm
          simp only [PdfEvent.draw.injEq] at heq
          exact absurd heq.1.symm h1
      · exact ihMem x y s hm
    · simp only [render_lines]
      exact ihFont

set_option maxRecDepth 20000 in
/-- C4 is false on the code: the pagination check runs only before each
input line, not before each wrapped sub-line, so the second sub-line of a
long line that starts just above the margin is drawn below 60 units. -/
theorem c4_counterexample :
    (export_pdf_events (simple_split_model 88) long_wrap_payload).any (draw_below 60)
      = true := by
  decide

/-- C4 (amended): the check before each input line resets the cursor to
the top margin whenever it fell below 60, so each line starts rendering
at a cursor of at least 60 and every heading (bold 12) draw is at
y ≥ 60; but wrapped sub-lines after the first of a single input line are
not re-checked and can be drawn below 60. -/
theorem c4_amended :
    (∀ st : PdfSt, 60 ≤ ((check_page st).2).y) ∧
    (∀ (wrap : String → List String) (p : ExportPayload) (x y : Int) (s : String),
        PdfEvent.draw ("Helvetica-Bold", 12) x y s ∈ export_pdf_events wrap p → 60 ≤ y) := by
  refine ⟨check_page_snd_y, ?_⟩
  intro wrap p x y s hm
  simp only [export_pdf_events] at hm
  rw [List.mem_append, List.mem_cons, List.mem_singleton] at hm
  rcases hm with (hm | hm) | hm
  · exact absurd hm (by simp)
  · exact (render_lines_bold_draw wrap (pySplit '\n' (format_text_resume p.data))
      ⟨792 - 40, ("Helvetica-Bold", 14)⟩ (by decide)).1 x y s hm
  · exact absurd hm (by simp)

set_option maxRecDepth 20000 in
theorem c4_witness :
    60 ≤ ((check_page ⟨30, ("Helvetica", 11)⟩).2).y ∧ (60 : Int) ≤ 738 :=
  ⟨c4_amended.1 ⟨30, ("Helvetica", 11)⟩,
   c4_amended.2 (simple_split_model 88) hello_summary_payload 40 738 "Summary" (by decide)⟩

theorem draw_wrapped_eq (ws : List String) :
    ∀ st : PdfSt, draw_wrapped st ws =
      (ws.mapIdx (fun i w => PdfEvent.draw st.font 40 (st.y - 14 * (i : Int)) w),
       ⟨st.y - 14 * (ws.length : Int), st.font⟩) := by
  induction ws with
  | nil =>
    intro st
    simp [draw_wrapped]
  | cons w ws ih =>
    intro st
    simp only [draw_wrapped, ih ⟨st.y - 14, st.font⟩, List.mapIdx_cons, List.length_cons,
      Prod.mk.injEq, PdfSt.mk.injEq]
    refine ⟨congrArg₂ List.cons ?_ ?_, ?_, trivial⟩
    · congr 1
      push_cast
      ring
    · congr 1
      funext i w2
      congr 1
      push_cast
      ring
    · push_cast
      ring

set_option maxRecDepth 20000 in
/-- C5 is false on the code: the heading heuristic compares the
whitespace-stripped line, so a reachable line " Skills " (produced here
by a multi-line summary) is rendered as a heading even though it does not
exactly equal any of the five heading strings. -/
theorem c5_counterexample :
    (export_pdf_events (simple_split_model 88) stripped_heading_payload).any
        (is_bold12_draw_of " Skills ") = true ∧
    " Skills " ∉ headings ∧
    " Skills " ∈ pySplit '\n' (format_text_resume stripped_heading_resume) :=
  ⟨by decide, by decide, by decide⟩

/-- C5 (amended): a line is rendered as a heading — bold 12 draw, cursor
step 18 — exactly when the line stripped of surrounding whitespace equals
one of the five heading strings; any other line is word-wrapped and each
wrapped sub-line is drawn at the current font with the cursor stepping 14
per sub-line. -/
theorem c5_amended (wrap : String → List String) (st : PdfSt) (line : String) :
    (pyStrip line ∈ headings →
      line_step wrap st line =
        ([PdfEvent.setFont ("Helvetica-Bold", 12),
          PdfEvent.draw ("Helvetica-Bold", 12) 40 st.y line,
          PdfEvent.setFont ("Helvetica", 11)],
         ⟨st.y - 18, ("Helvetica", 11)⟩)) ∧
    (pyStrip line ∉ headings →
      line_step wrap st line =
        ((wrap line).mapIdx (fun i w => PdfEvent.draw st.font 40 (st.y - 14 * (i : Int)) w),
         ⟨st.y - 14 * ((wrap line).length : Int), st.font⟩)) := by
  constructor
  · intro h
    simp [line_step, h]
  · intro h
    simp only [line_step, if_neg h]
    exact draw_wrapped_eq (wrap line) st

theorem c5_witness :
    line_step (simple_split_model 88) ⟨700, ("Helvetica", 11)⟩ "Summary"
      = ([PdfEvent.setFont ("Helvetica-Bold", 12),
          PdfEvent.draw ("Helvetica-Bold", 12) 40 700 "Summary",
          PdfEvent.setFont ("Helvetica", 11)], ⟨682, ("Helvetica", 11)⟩) ∧
    line_step (simple_split_model 88) ⟨700, ("Helvetica", 11)⟩ "hello world"
      = ([PdfEvent.draw ("Helvetica", 11) 40 700 "hello world"], ⟨686, ("Helvetica", 11)⟩) :=
  ⟨(c5_amended (simple_split_model 88) ⟨700, ("Helvetica", 11)⟩ "Summary").1 (by decide),
   by
    rw [(c5_amended (simple_split_model 88) ⟨700, ("Helvetica", 11)⟩ "hello world").2 (by decide)]
    decide⟩

theorem pyJoinStrs_ok (l : List PyVal) (h : ∀ x ∈ l, ∃ s, x = PyVal.str s) :
    ∃ rs, pyJoinStrs l = Except.ok rs := by
  induction l with
  | nil => exact ⟨[], rfl⟩
  | cons x xs ih =>
    obtain ⟨s, rfl⟩ := h x (List.mem_cons_self x xs)
    obtain ⟨rs, hrs⟩ := ih (fun y hy => h y (List.mem_cons_of_mem _ hy))
    refine ⟨s :: rs, ?_⟩
    simp [pyJoinStrs, pyAsStr, hrs]

/-- C6 is false on the code: the summary kind can fail. A context value
is an arbitrary JSON value, and `{"title": 1}` makes line 79 call
`.title()` on an integer, raising an `AttributeError` that surfaces as a
server error rather than returning `{"text": ...}`. -/
theorem c6_counterexample :
    ai_suggest ⟨[("title", PyVal.int 1)], "summary"⟩
      = SuggestResult.serverError "AttributeError: object has no attribute title" := rfl

/-- C6 (amended): every kind other than "summary" and "bullets" yields
the 400 response with detail "Unsupported type"; the "bullets" kind never
fails for any context; the "summary" kind never fails provided the
context's "title" value (when truthy) is a string and its "skills" value
(when truthy) is a string or a list of strings — otherwise it can raise,
surfacing as a server error. -/
theorem c6_amended :
    (∀ p : SuggestPayload, p.type ≠ "summary" → p.type ≠ "bullets" →
        ai_suggest p = SuggestResult.clientError 400 "Unsupported type") ∧
    (∀ ctx : List (String × PyVal),
        ∃ bs, ai_suggest ⟨ctx, "bullets"⟩ = SuggestResult.bullets bs) ∧
    (∀ ctx : List (String × PyVal),
        (pyTruthy (ctxGet ctx "title") = true → ∃ s, ctxGet ctx "title" = PyVal.str s) →
        (pyTruthy (ctxGet ctx "skills") = true →
          (∃ s, ctxGet ctx "skills" = PyVal.str s) ∨
          (∃ l, ctxGet ctx "skills" = PyVal.list l ∧ ∀ x ∈ l, ∃ s, x = PyVal.str s)) →
        ∃ t, ai_suggest ⟨ctx, "summary"⟩ = SuggestResult.text t) := by
  refine ⟨?_, ?_, ?_⟩
  · intro p h1 h2
    simp [ai_suggest, h1, h2]
  · intro ctx
    exact ⟨_, rfl⟩
  · intro ctx ht hs
    have htitle : ∃ ts, pyOrVal (ctxGet ctx "title") (PyVal.str "professional")
        = PyVal.str ts := by
      unfold pyOrVal
      split
      · next h => exact ht h
      · exact ⟨"professional", rfl⟩
    have hskills : ∃ items,
        pyIter (pyOrVal (ctxGet ctx "skills") (PyVal.list [])) = Except.ok items
          ∧ ∀ x ∈ items, ∃ s, x = PyVal.str s := by
      unfold pyOrVal
      split
      · next h =>
        rcases hs h with ⟨s, hsv⟩ | ⟨l, hsv, hl⟩
        · rw [hsv]
          refine ⟨_, rfl, ?_⟩
          intro x hx
          simp only [List.mem_map] at hx
          obtain ⟨c, -, rfl⟩ := hx
          exact ⟨String.singleton c, rfl⟩
        · rw [hsv]
          exact ⟨l, rfl, hl⟩
      · refine ⟨[], rfl, ?_⟩
        intro x hx
        simp at hx
    obtain ⟨ts, hts⟩ := htitle
    obtain ⟨items, hit, hall⟩ := hskills
    have hallf : ∀ x ∈ items.filter pyTruthy, ∃ s, x = PyVal.str s := by
      intro x hx
      exact hall x (List.mem_filter.1 hx).1
    obtain ⟨rs, hrs⟩ := pyJoinStrs_ok (items.filter pyTruthy) hallf
    have hrun : ai_suggest ⟨ctx, "summary"⟩ =
        SuggestResult.text (pyStrip
          (pyTitle ts ++ " with a track record of delivering measurable outcomes. "
            ++ "Skilled in " ++ String.intercalate ", " rs
            ++ ". Known for clear communication, ownership, and continuous improvement. "
            ++ "Seeking to leverage expertise to drive impact in a high-performing team.")) := by
      simp only [ai_suggest, hts, hit, pyJoin, hrs, pyTitleMethod, Except.map, reduceIte]
    exact ⟨_, hrun⟩

theorem c6_witness :
    ai_suggest ⟨[], "bogus"⟩ = SuggestResult.clientError 400 "Unsupported type" ∧
    ∃ t, ai_suggest ⟨engineer_ctx, "summary"⟩ = SuggestResult.text t :=
  ⟨c6_amended.1 ⟨[], "bogus"⟩ (by decide) (by decide),
   c6_amended.2.2 engineer_ctx
     (fun _ => ⟨"engineer", rfl⟩)
     (fun _ => Or.inr ⟨[PyVal.str "Go", PyVal.str "SQL"], rfl, by
        intro x hx
        simp only [List.mem_cons, List.not_mem_nil, or_false] at hx
        rcases hx with rfl | rfl
        · exact ⟨"Go", rfl⟩
        · exact ⟨"SQL", rfl⟩⟩)⟩
